import Mathlib

/-!
# OpenClaw GitHub App — protocol client verification

A shallow embedding of the core protocol client of the openclaw-github-app
repository (the `OpenClawClient` in the client source; the dual-phase
revision, the file shipped as `src/unnamed/part_006`, which extends
`src/client.ts` with the keepAlive dual-response handling described in the
specification).  Pure helpers (payload extraction, the device auth payload,
fingerprinting) are translated as Lean functions; the stateful client is
translated as an explicit state record plus step functions that return the
new state together with the list of observable promise settlements
(`Action`s) the corresponding JavaScript handler performs.

JavaScript semantics that matter here and are made explicit:
* string truthiness — every string except `""` is truthy (`strTruthy`);
* `a || b` on strings (`jsOr`);
* `x ?? y` — only `null`/`undefined` fall through (`Option.getD`);
* `Map` get/set/delete — association-list operations with unique keys.

External collaborators (node `crypto` PEM/DER codec, `JSON.stringify`,
the WebSocket library, timers) are modelled at their call boundary: DER
bytes are taken as input directly, `JSON.stringify` of a payload is an
uninterpreted total function whose output no theorem depends on, timers
appear as explicit `ScheduledTimeout` values and `on...Timeout` step
functions, and the wall clock is an explicit `now` argument.
-/

namespace OpenClaw

/-- Truthiness of a JavaScript string: every string except the empty string
is truthy. -/
def strTruthy (s : String) : Bool := !s.isEmpty

/-- Truthiness of an optional JavaScript string (`undefined` is falsy, a
string is truthy iff non-empty). -/
def optStrTruthy : Option String → Bool
  | some s => strTruthy s
  | none => false

/-- JavaScript `a || b` restricted to strings: the left operand unless it is
falsy (empty). -/
def jsOr (a b : String) : String := if a.isEmpty then b else a

/-- The shapes a JavaScript error value takes in the wire messages this
client reads: either a plain string, or an object carrying an optional
`message` field.  `stringified` records what `JSON.stringify` of the object
produces (the serialization itself is external). -/
inductive JsError where
  | jstr (s : String)
  | jobj (message : Option String) (stringified : String)
deriving Repr, DecidableEq

/-- Truthiness of an optional error value: `undefined`/missing is falsy, a
string error is truthy iff non-empty, an object error is always truthy. -/
def errTruthy : Option JsError → Bool
  | none => false
  | some (.jstr s) => strTruthy s
  | some (.jobj _ _) => true

/-- The expression `typeof e === "string" ? e : JSON.stringify(e)` from the
completion-text extraction (client source, completion branch). -/
def errAsText : JsError → String
  | .jstr s => s
  | .jobj _ stringified => stringified

/-- A response payload, restricted to exactly the fields the client reads:
`type` (renamed `ptype`; read by the connect handler), `status`, `summary`,
`error`, and `result.payloads[].text`.  `result = some none` models a
`result` object whose `payloads` is missing or not an array;
`result = some (some items)` models an array of payload items, each with an
optional `text` field. -/
structure ResPayload where
  ptype : Option String := none
  status : Option String := none
  summary : Option String := none
  error : Option JsError := none
  result : Option (Option (List (Option String))) := none
deriving Repr, DecidableEq

/-- An RPC response frame `{ type: "res", id, ok, payload?, error? }`. -/
structure RPCResponse where
  id : String
  ok : Bool
  payload : Option ResPayload := none
  error : Option JsError := none
deriving Repr, DecidableEq

/-- A stream event frame `{ type: "event", event, payload?, stream?, text? }`,
restricted to the payload fields the client reads (`payload.nonce` for the
challenge, `payload.state` for lifecycle). -/
structure StreamEvent where
  event : String
  payloadState : Option String := none
  payloadNonce : Option String := none
  stream : Option String := none
  text : Option String := none
deriving Repr, DecidableEq

/-- The structured-result text of a completion payload (client source,
completion branch of `handleResponse`): when `payload.result.payloads` is
an array, map each item to its `text ?? ""`, drop the falsy (empty) ones,
and join with newlines; otherwise the empty string. -/
def joinedPayloadTexts (payload : ResPayload) : String :=
  match payload.result with
  | some (some payloads) =>
    String.intercalate "\n" ((payloads.map (fun p => p.getD "")).filter strTruthy)
  | _ => ""

/-- Completion-text extraction from the dual-phase completion payload
(client source, completion branch of `handleResponse`): start from the
joined non-empty structured texts, fall back to `payload.summary` when that
is empty and the summary is truthy, fall back to the error detail (the
string itself, or the stringified object) when still empty and
`payload.error` is truthy. -/
def extractResultText (payload : ResPayload) : String :=
  let r0 := joinedPayloadTexts payload
  let r1 := if !strTruthy r0 && optStrTruthy payload.summary then payload.summary.getD "" else r0
  let r2 :=
    if !strTruthy r1 && errTruthy payload.error then
      match payload.error with
      | some e => errAsText e
      | none => r1
    else r1
  r2

/-- Error text for a dual-phase response with `payload.status === "error"`
(client source, fast-fail branch):
`payload.error ? (string ? error : error.message || stringify(error))
             : (payload.summary || "Unknown error")`. -/
def errorStatusText (payload : ResPayload) : String :=
  if errTruthy payload.error then
    match payload.error with
    | some (.jstr s) => s
    | some (.jobj message stringified) => jsOr (message.getD "") stringified
    | none => "Unknown error"
  else
    jsOr (payload.summary.getD "") "Unknown error"

/-- Message derived from `response.error` in the `!response.ok` branch:
`response.error ? (typeof error === "object" ? error.message
                                             : String(error))
               : "Request failed"`.
An object error with a missing `message` yields the string `undefined`
(template-literal rendering of `undefined`). -/
def topErrorMsg (error : Option JsError) : String :=
  if errTruthy error then
    match error with
    | some (.jobj message _) => message.getD "undefined"
    | some (.jstr s) => s
    | none => "Request failed"
  else "Request failed"

/-- Model of the external `JSON.stringify(response.payload)` used only to
build the connect-rejection message; no theorem depends on its output. -/
def stringifyPayload : Option ResPayload → String
  | none => "undefined"
  | some _ => "(payload json)"

/-- Message used in the connect-rejected branch:
`response.error ? (typeof error === "object" ? error.message : String(error))
               : JSON.stringify(response.payload)`. -/
def connectErrMsg (response : RPCResponse) : String :=
  if errTruthy response.error then
    match response.error with
    | some (.jobj message _) => message.getD "undefined"
    | some (.jstr s) => s
    | none => stringifyPayload response.payload
  else stringifyPayload response.payload

/-- One entry of the `pendingRequests` map.  `keepAlive` is the flag stored
by `sendMessage` for the dual-phase agent call.  `armed` records whether the
stored `resolve`/`reject` closures still settle the original promise
(`true`), or have been swapped for no-ops after the accepted response
(`false`) — calling a swapped closure settles nothing. -/
structure PendingEntry where
  keepAlive : Bool
  armed : Bool
deriving Repr, DecidableEq

/-- WebSocket readyState values. -/
inductive WsReadyState where
  | connecting
  | opened
  | closing
  | closed
deriving Repr, DecidableEq

/-- The mutable fields of `OpenClawClient`, plus the construction-time
configuration the handlers read (`deviceId` from the generated device
identity; `token` is the global gateway token after its `|| ""` default).
Booleans of the form `...Armed` model whether the corresponding stored
resolver field is non-null. -/
structure ClientState where
  ws : Option WsReadyState
  requestId : Nat
  pending : List (String × PendingEntry)
  streamBuffer : List String
  lifecycleEndArmed : Bool
  agentCompletionArmed : Bool
  connectArmed : Bool
  connectRequestId : Option String
  deviceId : String
  token : String
deriving Repr, DecidableEq

/-- JavaScript `Map.get` on an association list. -/
def mapGet (m : List (String × PendingEntry)) (k : String) : Option PendingEntry :=
  match m with
  | [] => none
  | (k₁, v) :: rest => if k₁ = k then some v else mapGet rest k

/-- JavaScript `Map.set` on an association list (replaces an existing key,
otherwise appends). -/
def mapSet (m : List (String × PendingEntry)) (k : String) (v : PendingEntry) :
    List (String × PendingEntry) :=
  match m with
  | [] => [(k, v)]
  | (k₁, v₁) :: rest => if k₁ = k then (k, v) :: rest else (k₁, v₁) :: mapSet rest k v

/-- JavaScript `Map.delete` on an association list: a `Map` keeps keys
unique, so dropping every entry with the key removes exactly the one
entry. -/
def mapDelete (m : List (String × PendingEntry)) (k : String) :
    List (String × PendingEntry) :=
  m.filter (fun kv => kv.1 != k)

/-- An outbound frame, reduced to the data the claims are about. -/
inductive OutFrame where
  | rpcReq (id : String) (method : String)
  | connectReq (id : String) (authPayload : String) (nonce : Option String) (signedAt : Nat)
deriving Repr, DecidableEq

/-- The observable effects a handler performs: writing a frame to the open
socket, and settling one of the live promises.  A settlement action is
emitted only when the corresponding resolver is still armed — invoking a
swapped no-op closure or a null-checked absent resolver emits nothing. -/
inductive Action where
  | wireSend (frame : OutFrame)
  | resolveAccepted (id : String)
  | rejectPendingCall (id : String) (msg : String)
  | resolvePendingCall (id : String) (payload : ResPayload)
  | resolveAgentCompletion (text : String)
  | resolveConnect
  | rejectConnect (msg : String)
  | resolveLifecycleEnd
deriving Repr, DecidableEq

/-- `send`: write the frame only when the socket exists and is OPEN;
otherwise the frame is silently dropped (client source, `send`). -/
def send (s : ClientState) (frame : OutFrame) : List Action :=
  if s.ws = some WsReadyState.opened then [Action.wireSend frame] else []

/-- `nextId`: increment the counter and render the correlation id
(client source: `req-` followed by the incremented counter). -/
def nextId (s : ClientState) : String × ClientState :=
  let n := s.requestId + 1
  ("req-" ++ toString n, { s with requestId := n })

/-- Valid gateway client id (client source constant). -/
def CLIENT_ID : String := "gateway-client"

/-- Valid gateway client mode (client source constant). -/
def CLIENT_MODE : String := "backend"

/-- Gateway protocol version (client source constant). -/
def PROTOCOL_VERSION : Nat := 3

/-- Parameters of `buildDeviceAuthPayload` (client source). -/
structure DeviceAuthParams where
  deviceId : String
  clientId : String
  clientMode : String
  role : String
  scopes : List String
  signedAtMs : Nat
  token : Option String
  nonce : Option String
deriving Repr, DecidableEq

/-- `buildDeviceAuthPayload` (client source): the canonical assertion string
signed during the handshake.  The version tag is `v2` exactly when the nonce
is truthy (`params.nonce ?`), the scopes are comma-joined, the token
defaults to the empty string (`params.token ?? ""`), and in the `v2` form
the nonce is appended as a final field; the fields are pipe-joined. -/
def buildDeviceAuthPayload (params : DeviceAuthParams) : String :=
  let version := if optStrTruthy params.nonce then "v2" else "v1"
  let scopes := String.intercalate "," params.scopes
  let token := params.token.getD ""
  let base := [version, params.deviceId, params.clientId, params.clientMode,
    params.role, scopes, toString params.signedAtMs, token]
  let base := if version = "v2" then base ++ [params.nonce.getD ""] else base
  String.intercalate "|" base

/-- Projection `response.payload?.type` used by the connect handler. -/
def payloadPtype : Option ResPayload → Option String
  | some p => p.ptype
  | none => none

/-- The part of `handleResponse` after the connect-handshake branch: look up
the pending record for the correlation id; a missing record means the
response is ignored.  `!ok` responses delete the record, fire the agent
completion with an error text when the record is a still-listening keepAlive
one, and reject the stored promise.  For keepAlive records an
`accepted` status resolves the acceptance and re-arms the record with no-op
resolvers, an `error` status deletes the record and fast-fails the agent
completion, and any other status is the completion: the record is deleted
and the agent completion resolves with the stream buffer joined, or the
extracted result text, or the placeholder.  Non-keepAlive records resolve
with the payload and are deleted. -/
def handleResponsePending (s : ClientState) (response : RPCResponse) :
    ClientState × List Action :=
  match mapGet s.pending response.id with
  | none => (s, [])
  | some pending =>
    if !response.ok then
      let s₁ := { s with pending := mapDelete s.pending response.id }
      let msg := topErrorMsg response.error
      let fire := pending.keepAlive && s₁.agentCompletionArmed
      let s₂ := if fire then { s₁ with agentCompletionArmed := false } else s₁
      let completionActs :=
        if fire then [Action.resolveAgentCompletion ("⚠️ Error: " ++ msg)] else []
      let rejectActs :=
        if pending.armed then [Action.rejectPendingCall response.id msg] else []
      (s₂, completionActs ++ rejectActs)
    else
      let payload := response.payload.getD {}
      if pending.keepAlive then
        if payload.status == some "accepted" then
          let acts := if pending.armed then [Action.resolveAccepted response.id] else []
          ({ s with pending := mapSet s.pending response.id { pending with armed := false } },
           acts)
        else if payload.status == some "error" then
          let s₁ := { s with pending := mapDelete s.pending response.id }
          let errText := errorStatusText payload
          if s₁.agentCompletionArmed then
            ({ s₁ with agentCompletionArmed := false },
             [Action.resolveAgentCompletion ("⚠️ Error: " ++ errText)])
          else (s₁, [])
        else
          let s₁ := { s with pending := mapDelete s.pending response.id }
          let resultText := extractResultText payload
          if s₁.agentCompletionArmed then
            let streamed := String.join s₁.streamBuffer
            ({ s₁ with agentCompletionArmed := false },
             [Action.resolveAgentCompletion (jsOr streamed (jsOr resultText "(empty response)"))])
          else (s₁, [])
      else
        ({ s with pending := mapDelete s.pending response.id },
         if pending.armed then [Action.resolvePendingCall response.id payload] else [])

/-- `handleResponse` (client source): a response matching the in-flight
connect request id settles the connect promise — resolve on
`ok && payload.type === "hello-ok"`, reject with a derived message
otherwise — and clears `connectRequestId` either way; any other response is
correlated against the pending map. -/
def handleResponse (s : ClientState) (response : RPCResponse) :
    ClientState × List Action :=
  match s.connectRequestId with
  | some cid =>
    if response.id = cid then
      let s₁ := { s with connectRequestId := none }
      if response.ok && (payloadPtype response.payload == some "hello-ok") then
        if s₁.connectArmed then
          ({ s₁ with connectArmed := false }, [Action.resolveConnect])
        else (s₁, [])
      else
        if s₁.connectArmed then
          ({ s₁ with connectArmed := false },
           [Action.rejectConnect ("Connect rejected: " ++ connectErrMsg response)])
        else (s₁, [])
    else handleResponsePending s response
  | none => handleResponsePending s response

/-- `handleEvent` (client source).  A `connect.challenge` event allocates a
correlation id, records it as the connect request id, builds the signed
device auth payload from the event nonce and the wall clock `now`, and
sends the connect frame.  Any other event is checked against the two
independent conditions: an `agent` event on the `assistant` stream with
truthy text appends that text to the stream buffer, and a `lifecycle` event
whose payload state is `end` resolves the lifecycle promise when it is
still armed. -/
def handleEvent (now : Nat) (s : ClientState) (event : StreamEvent) :
    ClientState × List Action :=
  if event.event = "connect.challenge" then
    let nonce := event.payloadNonce
    let (connectId, s₁) := nextId s
    let s₂ := { s₁ with connectRequestId := some connectId }
    let authPayload := buildDeviceAuthPayload {
      deviceId := s.deviceId
      clientId := CLIENT_ID
      clientMode := CLIENT_MODE
      role := "operator"
      scopes := ["operator.read", "operator.write"]
      signedAtMs := now
      token := if s.token.isEmpty then none else some s.token
      nonce := nonce }
    (s₂, send s₂ (OutFrame.connectReq connectId authPayload nonce now))
  else
    let s₁ :=
      if event.event = "agent" && (event.stream == some "assistant")
          && optStrTruthy event.text then
        { s with streamBuffer := s.streamBuffer ++ [event.text.getD ""] }
      else s
    if event.event = "lifecycle" && (event.payloadState == some "end") then
      if s₁.lifecycleEndArmed then
        ({ s₁ with lifecycleEndArmed := false }, [Action.resolveLifecycleEnd])
      else (s₁, [])
    else (s₁, [])

/-- `disconnect` (client source): close and drop the socket when present,
otherwise do nothing.  It touches no other field — in particular it settles
no pending call. -/
def disconnect (s : ClientState) : ClientState :=
  if s.ws.isSome then { s with ws := none } else s

/-- A timer registered with `setTimeout`: which correlation id it guards,
after how many milliseconds it fires, and the rejection message of the
error it constructs. -/
structure ScheduledTimeout where
  id : String
  afterMs : Nat
  message : String
deriving Repr, DecidableEq

/-- `request` (client source): throw `Not connected` when the socket field
is null; otherwise allocate the next correlation id, register a
single-phase pending record, send the frame (dropped silently when the
socket is not OPEN) and schedule the 60-second timeout. -/
def request (s : ClientState) (method : String) :
    Except String (ClientState × String × List Action × ScheduledTimeout) :=
  match s.ws with
  | none => Except.error "Not connected"
  | some _ =>
    let (id, s₁) := nextId s
    let s₂ := { s₁ with pending := mapSet s₁.pending id { keepAlive := false, armed := true } }
    Except.ok (s₂, id, send s₂ (OutFrame.rpcReq id method),
      { id := id, afterMs := 60000, message := "Request timeout: " ++ method })

/-- The body of the closure a request timeout runs when it fires: when the
pending record still exists, delete it and reject; the rejection settles
the original promise only when that promise is still unsettled, which for a
present record is exactly `armed = true`. -/
def onRequestTimeout (s : ClientState) (t : ScheduledTimeout) :
    ClientState × List Action :=
  match mapGet s.pending t.id with
  | some entry =>
    ({ s with pending := mapDelete s.pending t.id },
     if entry.armed then [Action.rejectPendingCall t.id t.message] else [])
  | none => (s, [])

/-- The state-mutating prefix of `sendMessage` (client source): throw when
the socket field is null; otherwise arm the lifecycle-end promise, reset
the stream buffer, arm the agent completion promise, allocate the next
correlation id, register the keepAlive pending record, send the agent
frame and schedule the hard 300-second timeout. -/
def sendMessageStart (s : ClientState) :
    Except String (ClientState × String × List Action × ScheduledTimeout) :=
  match s.ws with
  | none => Except.error "Not connected"
  | some _ =>
    let s₁ := { s with lifecycleEndArmed := true, streamBuffer := [],
                       agentCompletionArmed := true }
    let (id, s₂) := nextId s₁
    let s₃ := { s₂ with pending := mapSet s₂.pending id { keepAlive := true, armed := true } }
    Except.ok (s₃, id, send s₃ (OutFrame.rpcReq id "agent"),
      { id := id, afterMs := 300000, message := "Agent request timeout after 300s" })

/-- The `ws.on("error")` callback registered by `connect`: reject the
connect promise when it is still armed, and null both stored resolvers. -/
def onSocketError (s : ClientState) (msg : String) : ClientState × List Action :=
  if s.connectArmed then ({ s with connectArmed := false }, [Action.rejectConnect msg])
  else (s, [])

/-- The `ws.on("close")` callback registered by `connect`: reject the
connect promise when it is still armed, and null both stored resolvers. -/
def onSocketClose (s : ClientState) (code : Nat) : ClientState × List Action :=
  if s.connectArmed then
    ({ s with connectArmed := false },
     [Action.rejectConnect ("WebSocket closed during handshake (code=" ++ toString code ++ ")")])
  else (s, [])

/-- The connect-handshake timeout callback: reject the connect promise when
it is still armed. -/
def onConnectTimeout (s : ClientState) (timeoutMs : Nat) : ClientState × List Action :=
  if s.connectArmed then
    ({ s with connectArmed := false },
     [Action.rejectConnect ("Connect handshake timeout after " ++ toString timeoutMs ++ "ms")])
  else (s, [])

/-- The continuation `sendMessage` chains onto the lifecycle-end promise:
the joined stream buffer, or the placeholder when the buffer is empty. -/
def lifecycleFallbackText (buffer : List String) : String :=
  jsOr (String.join buffer) "(no response text captured)"

/-- An inbound wire message after JSON parsing and shape dispatch. -/
inductive InMsg where
  | res (r : RPCResponse)
  | event (e : StreamEvent)
deriving Repr, DecidableEq

/-- `handleMessage` dispatch: responses to `handleResponse`, events to
`handleEvent`. -/
def stepMessage (now : Nat) (s : ClientState) (m : InMsg) : ClientState × List Action :=
  match m with
  | .res r => handleResponse s r
  | .event e => handleEvent now s e

/-- The first settlement of the race inside `sendMessage` among the actions
of one handler invocation: an agent-completion resolution wins with its
text; a lifecycle-end resolution wins with the fallback text computed from
the buffer as it stands when the chained continuation runs (the buffer
after the handler). -/
def settlementOfActions (buffer : List String) : List Action → Option String
  | [] => none
  | Action.resolveAgentCompletion t :: _ => some t
  | Action.resolveLifecycleEnd :: _ => some (lifecycleFallbackText buffer)
  | _ :: rest => settlementOfActions buffer rest

/-- The result of the `Promise.race` inside `sendMessage` over a trace of
inbound messages, starting from a state where the agent call is in flight:
messages are processed in arrival order and the first settlement wins;
`none` means no settlement arose from the trace (the race would be decided
later, by further messages or the timeout). -/
def runResult (s : ClientState) : List InMsg → Option String
  | [] => none
  | m :: rest =>
    let step := stepMessage 0 s m
    match settlementOfActions step.1.streamBuffer step.2 with
    | some t => some t
    | none => runResult step.1 rest

/-! ## Device identity: SHA-256 and the public-key fingerprint

`fingerprintPublicKey` in the client source hashes the raw public-key
bytes with node `createHash("sha256")` and hex-encodes the digest.  The
hash itself is the standard SHA-256; it is implemented here executably
over byte lists (`Nat` values below 256) so the fingerprint pipeline is a
concrete function.  The PEM → SPKI-DER export performed by node `crypto`
is external; the functions below take the exported DER bytes directly. -/

/-- A 32-bit word: a natural number reduced modulo 2^32. -/
def w32 (n : Nat) : Nat := n % 4294967296

/-- Right rotation of a 32-bit word. -/
def rotr32 (x n : Nat) : Nat := w32 ((x >>> n) ||| (x <<< (32 - n)))

/-- SHA-256 small sigma 0. -/
def ssig0 (x : Nat) : Nat := (rotr32 x 7) ^^^ (rotr32 x 18) ^^^ (x >>> 3)

/-- SHA-256 small sigma 1. -/
def ssig1 (x : Nat) : Nat := (rotr32 x 17) ^^^ (rotr32 x 19) ^^^ (x >>> 10)

/-- SHA-256 big sigma 0. -/
def bsig0 (x : Nat) : Nat := (rotr32 x 2) ^^^ (rotr32 x 13) ^^^ (rotr32 x 22)

/-- SHA-256 big sigma 1. -/
def bsig1 (x : Nat) : Nat := (rotr32 x 6) ^^^ (rotr32 x 11) ^^^ (rotr32 x 25)

/-- The 64 SHA-256 round constants. -/
def K256 : List Nat :=
  [1116352408, 1899447441, 3049323471, 3921009573, 961987163,
   1508970993, 2453635748, 2870763221, 3624381080, 310598401,
   607225278, 1426881987, 1925078388, 2162078206, 2614888103,
   3248222580, 3835390401, 4022224774, 264347078, 604807628,
   770255983, 1249150122, 1555081692, 1996064986, 2554220882,
   2821834349, 2952996808, 3210313671, 3336571891, 3584528711,
   113926993, 338241895, 666307205, 773529912, 1294757372,
   1396182291, 1695183700, 1986661051, 2177026350, 2456956037,
   2730485921, 2820302411, 3259730800, 3345764771, 3516065817,
   3600352804, 4094571909, 275423344, 430227734, 506948616,
   659060556, 883997877, 958139571, 1322822218, 1537002063,
   1747873779, 1955562222, 2024104815, 2227730452, 2361852424,
   2428436474, 2756734187, 3204031479, 3329325298]

/-- The SHA-256 initial hash state. -/
def H256 : List Nat :=
  [1779033703, 3144134277, 1013904242, 2773480762,
   1359893119, 2600822924, 528734635, 1541459225]

/-- Big-endian byte rendering of a natural number into a fixed width. -/
def beBytes : Nat → Nat → List Nat
  | 0, _ => []
  | k + 1, n => beBytes k (n / 256) ++ [n % 256]

/-- SHA-256 padding: append the 0x80 byte, zero bytes up to 56 mod 64, and
the 64-bit big-endian bit length. -/
def sha256pad (ms : List Nat) : List Nat :=
  let len := ms.length
  let zeros := (64 - (len + 9) % 64) % 64
  ms ++ [128] ++ List.replicate zeros 0 ++ beBytes 8 (8 * len)

/-- Group bytes into big-endian 32-bit words. -/
def toWords : List Nat → List Nat
  | b₀ :: b₁ :: b₂ :: b₃ :: rest =>
    (((b₀ * 256 + b₁) * 256 + b₂) * 256 + b₃) :: toWords rest
  | _ => []

/-- Extend a message schedule by `n` further words. -/
def buildSchedule (ws : List Nat) : Nat → List Nat
  | 0 => ws
  | k + 1 =>
    let i := ws.length
    let w := w32 (ssig1 (ws.getD (i - 2) 0) + ws.getD (i - 7) 0
      + ssig0 (ws.getD (i - 15) 0) + ws.getD (i - 16) 0)
    buildSchedule (ws ++ [w]) k

/-- One SHA-256 compression round; the state is the eight working words and
the input is the already-added round constant plus schedule word. -/
def sha256round (hs : List Nat) (kw : Nat) : List Nat :=
  match hs with
  | [a, b, c, d, e, f, g, h] =>
    let ch := (e &&& f) ^^^ ((e ^^^ 4294967295) &&& g)
    let maj := (a &&& b) ^^^ (a &&& c) ^^^ (b &&& c)
    let t₁ := w32 (h + bsig1 e + ch + kw)
    let t₂ := w32 (bsig0 a + maj)
    [w32 (t₁ + t₂), a, b, c, w32 (d + t₁), e, f, g]
  | _ => hs

/-- Compress one 64-byte block into the running hash state. -/
def sha256block (hs : List Nat) (block : List Nat) : List Nat :=
  let ws := buildSchedule (toWords block) 48
  let kws := (K256.zip ws).map (fun kw => w32 (kw.1 + kw.2))
  let out := kws.foldl sha256round hs
  (hs.zip out).map (fun p => w32 (p.1 + p.2))

/-- Split a byte list into 64-byte chunks; the fuel is an upper bound on
the number of chunks, so structural recursion on it keeps the function
kernel-reducible. -/
def chunksAux : Nat → List Nat → List (List Nat)
  | 0, _ => []
  | _, [] => []
  | fuel + 1, b :: rest => ((b :: rest).take 64) :: chunksAux fuel ((b :: rest).drop 64)

/-- Split a byte list into 64-byte chunks. -/
def chunks64 (ms : List Nat) : List (List Nat) := chunksAux ms.length ms

/-- SHA-256 of a byte list, as the 32 digest bytes. -/
def sha256 (ms : List Nat) : List Nat :=
  List.flatten (((chunks64 (sha256pad ms)).foldl sha256block H256).map (beBytes 4))

/-- One lowercase hex digit. -/
def hexDigitChar (n : Nat) : Char :=
  if n < 10 then Char.ofNat (48 + n) else Char.ofNat (87 + n)

/-- Lowercase hex rendering of one byte. -/
def byteToHex (b : Nat) : String :=
  String.mk [hexDigitChar (b / 16), hexDigitChar (b % 16)]

/-- Lowercase hex rendering of a byte list (node `digest("hex")`). -/
def bytesToHex (bs : List Nat) : String :=
  String.join (bs.map byteToHex)

/-- Hex-encoded SHA-256, the composition the client source builds with
`createHash("sha256").update(raw).digest("hex")`. -/
def sha256hex (ms : List Nat) : String := bytesToHex (sha256 ms)

/-- The fixed 12-byte ASN.1/SPKI prefix of an Ed25519 public key DER
(client source constant, hex 302a300506032b6570032100). -/
def ED25519_SPKI_PREFIX : List Nat :=
  [48, 42, 48, 5, 6, 3, 43, 101, 112, 3, 33, 0]

/-- `derivePublicKeyRaw` (client source), applied to the exported SPKI DER
bytes: when the DER is exactly the Ed25519 prefix followed by 32 bytes,
return those 32 raw bytes; otherwise return the DER unchanged. -/
def derivePublicKeyRaw (spki : List Nat) : List Nat :=
  if spki.length = ED25519_SPKI_PREFIX.length + 32
      ∧ spki.take ED25519_SPKI_PREFIX.length = ED25519_SPKI_PREFIX then
    spki.drop ED25519_SPKI_PREFIX.length
  else spki

/-- `fingerprintPublicKey` (client source): the hex SHA-256 of the raw
public-key bytes. -/
def fingerprintPublicKey (spki : List Nat) : String :=
  sha256hex (derivePublicKeyRaw spki)

/-- Decimal value of a digit character, used to reason about the rendered
correlation ids. -/
def digitVal (c : Char) : Nat := c.toNat - 48

/-- Value of a most-significant-first digit string, continuing from an
accumulator. -/
def digitsValFrom (a : Nat) (cs : List Char) : Nat :=
  cs.foldl (fun a c => a * 10 + digitVal c) a

/-! ## Concrete fixtures

A concrete in-flight-call state and concrete wire payloads, used to
instantiate the general theorems below on closed inputs. -/

/-- A concrete client state with the dual-phase agent call `req-1` in
flight: the socket is OPEN, the keepAlive record is registered and armed,
the stream buffer is empty, and the lifecycle-end and agent-completion
promises are armed. -/
def demoState : ClientState :=
  { ws := some WsReadyState.opened
    requestId := 1
    pending := [("req-1", { keepAlive := true, armed := true })]
    streamBuffer := []
    lifecycleEndArmed := true
    agentCompletionArmed := true
    connectArmed := false
    connectRequestId := none
    deviceId := "device-fp"
    token := "" }

/-- A concrete first (acceptance) response payload. -/
def acceptedPayload : ResPayload := { status := some "accepted" }

/-- A concrete completion payload carrying one structured text. -/
def completionPayload : ResPayload :=
  { status := some "ok", summary := some "completed",
    result := some (some [some "The answer"]) }

/-- A concrete error-status payload with a string error detail. -/
def errorPayload : ResPayload :=
  { status := some "error", error := some (JsError.jstr "boom") }

/-- A concrete assistant stream-fragment event. -/
def fragmentEvent (t : String) : StreamEvent :=
  { event := "agent", stream := some "assistant", text := some t }

/-- A concrete terminal lifecycle event. -/
def lifecycleEndEvent : StreamEvent :=
  { event := "lifecycle", payloadState := some "end" }

end OpenClaw

namespace OpenClaw

/-! ## Theorems -/

set_option maxRecDepth 100000 in
/-- Sanity anchor for the hash model: it reproduces the standard SHA-256
digest of the three-byte message abc. -/
theorem sha256hex_abc :
    sha256hex [97, 98, 99]
      = "ba7816bf8f01cfea414140de5dae2223b00361a396177a9cb410ff61f20015ad" := by
  rfl

/-- C5: the canonical assertion string is the pipe-delimited concatenation,
in order, of version tag, identity fingerprint (device id), client id,
client mode, requested role, comma-joined scopes, signing timestamp, and
bearer token (empty when absent); with no nonce the version tag is v1 and
no nonce field is present, and with a (non-empty) nonce the version tag is
v2 and the nonce is appended as the final field. -/
theorem deviceAuthPayload_format
    (deviceId clientId clientMode role : String) (scopes : List String)
    (signedAtMs : Nat) (token : Option String) :
    buildDeviceAuthPayload
        { deviceId, clientId, clientMode, role, scopes, signedAtMs, token, nonce := none }
      = "v1|" ++ deviceId ++ "|" ++ clientId ++ "|" ++ clientMode ++ "|" ++ role ++ "|"
        ++ String.intercalate "," scopes ++ "|" ++ toString signedAtMs ++ "|" ++ token.getD ""
    ∧ ∀ n : String, n ≠ "" →
      buildDeviceAuthPayload
          { deviceId, clientId, clientMode, role, scopes, signedAtMs, token, nonce := some n }
        = "v2|" ++ deviceId ++ "|" ++ clientId ++ "|" ++ clientMode ++ "|" ++ role ++ "|"
          ++ String.intercalate "," scopes ++ "|" ++ toString signedAtMs ++ "|" ++ token.getD ""
          ++ "|" ++ n := by
  constructor
  · simp [buildDeviceAuthPayload, optStrTruthy, String.intercalate, String.intercalate.go,
      String.append_assoc]
  · intro n hn
    have hne : n.isEmpty = false := by
      cases h : n.isEmpty
      · rfl
      · exact absurd ((String.isEmpty_iff n).mp h) hn
    simp [buildDeviceAuthPayload, optStrTruthy, strTruthy, hne, String.intercalate,
      String.intercalate.go, String.append_assoc]

/-- C5 witness: the v2 form at concrete inputs. -/
theorem deviceAuthPayload_format_witness :
    buildDeviceAuthPayload
        { deviceId := "d", clientId := "c", clientMode := "m", role := "r",
          scopes := ["s1", "s2"], signedAtMs := 5, token := none, nonce := some "N" }
      = "v2|d|c|m|r|s1,s2|5||N" := by
  have h := (deviceAuthPayload_format "d" "c" "m" "r" ["s1", "s2"] 5 none).2 "N" (by decide)
  rw [h]
  rfl

/-- C6: the fingerprint is the hash of the canonical raw public-key bytes:
stripping the fixed ASN.1/SPKI wrapper from a well-formed Ed25519 DER
yields exactly the 32 raw key bytes, the fingerprint is by construction the
hex SHA-256 of the stripped bytes, and the computation is deterministic —
equal public keys yield equal fingerprints. -/
theorem fingerprint_of_raw_key_bytes :
    (∀ raw : List Nat, raw.length = 32 →
      derivePublicKeyRaw (ED25519_SPKI_PREFIX ++ raw) = raw)
    ∧ (∀ spki : List Nat, fingerprintPublicKey spki = sha256hex (derivePublicKeyRaw spki))
    ∧ (∀ spki₁ spki₂ : List Nat, spki₁ = spki₂ →
        fingerprintPublicKey spki₁ = fingerprintPublicKey spki₂) := by
  refine ⟨?_, fun _ => rfl, fun _ _ h => by rw [h]⟩
  intro raw hlen
  have hpl : ED25519_SPKI_PREFIX.length = 12 := by rfl
  unfold derivePublicKeyRaw
  rw [if_pos]
  · rw [hpl, List.drop_append_of_le_length (by simp [hpl])]
    simp [hpl]
  · constructor
    · simp [hpl, hlen]
    · rw [hpl, List.take_append_of_le_length (by simp [hpl])]
      simp [hpl]

/-- C6 witness: the wrapper is stripped from a concrete well-formed DER. -/
theorem fingerprint_of_raw_key_bytes_witness :
    derivePublicKeyRaw (ED25519_SPKI_PREFIX ++ List.replicate 32 7) = List.replicate 32 7 :=
  fingerprint_of_raw_key_bytes.1 (List.replicate 32 7) (by simp)

/-- Looking up the key just set finds the new entry. -/
theorem mapGet_mapSet_self (m : List (String × PendingEntry)) (k : String) (v : PendingEntry) :
    mapGet (mapSet m k v) k = some v := by
  induction m with
  | nil => simp [mapSet, mapGet]
  | cons kv rest ih =>
    by_cases h : kv.1 = k
    · simp [mapSet, mapGet, h]
    · simp [mapSet, mapGet, h, ih]

/-- Setting one key leaves lookups of other keys unchanged. -/
theorem mapGet_mapSet_ne (m : List (String × PendingEntry)) (k k₁ : String) (v : PendingEntry)
    (h : k₁ ≠ k) : mapGet (mapSet m k v) k₁ = mapGet m k₁ := by
  induction m with
  | nil => simp [mapSet, mapGet, Ne.symm h]
  | cons kv rest ih =>
    obtain ⟨a, b⟩ := kv
    by_cases hk : a = k
    · simp [mapSet, mapGet, hk, h, Ne.symm h]
    · by_cases hk₁ : a = k₁
      · simp [mapSet, mapGet, hk, hk₁, h]
      · simp [mapSet, mapGet, hk, hk₁, ih]

/-- Looking up a deleted key yields nothing. -/
theorem mapGet_mapDelete_self (m : List (String × PendingEntry)) (k : String) :
    mapGet (mapDelete m k) k = none := by
  induction m with
  | nil => rfl
  | cons kv rest ih =>
    obtain ⟨a, b⟩ := kv
    by_cases h : a = k
    · simpa [mapDelete, List.filter_cons, h] using ih
    · simpa [mapDelete, List.filter_cons, h, mapGet] using ih

/-- Deleting one key leaves lookups of other keys unchanged. -/
theorem mapGet_mapDelete_ne (m : List (String × PendingEntry)) (k k₁ : String)
    (h : k₁ ≠ k) : mapGet (mapDelete m k) k₁ = mapGet m k₁ := by
  induction m with
  | nil => rfl
  | cons kv rest ih =>
    obtain ⟨a, b⟩ := kv
    by_cases hk : a = k
    · simpa [mapDelete, List.filter_cons, hk, mapGet, Ne.symm h] using ih
    · by_cases hk₁ : a = k₁
      · simp [mapDelete, List.filter_cons, hk, hk₁, mapGet, h]
      · simpa [mapDelete, List.filter_cons, hk, hk₁, mapGet] using ih

/-- C4: every assistant-channel stream fragment is appended at the end of
the Stream Buffer, in arrival order, with no reordering or deduplication;
and concretely, delivering the fragments Hello-comma-space, world, and an
exclamation mark in that order before a terminal lifecycle event yields
exactly the string Hello, world! as the fallback result. -/
theorem streamBuffer_appends_in_order :
    (∀ (now : Nat) (s : ClientState) (e : StreamEvent) (t : String),
      e.event = "agent" → e.stream = some "assistant" → e.text = some t → t ≠ "" →
      (handleEvent now s e).1.streamBuffer = s.streamBuffer ++ [t])
    ∧ runResult demoState
        [InMsg.event (fragmentEvent "Hello, "), InMsg.event (fragmentEvent "world"),
         InMsg.event (fragmentEvent "!"), InMsg.event lifecycleEndEvent]
        = some "Hello, world!" := by
  constructor
  · intro now s e t he hs ht htne
    have hne : t.isEmpty = false := by
      cases h : t.isEmpty
      · rfl
      · exact absurd ((String.isEmpty_iff t).mp h) htne
    simp [handleEvent, he, hs, ht, optStrTruthy, strTruthy, hne]
  · rfl

/-- C4 witness: the general append fact at a concrete event and state. -/
theorem streamBuffer_appends_in_order_witness :
    (handleEvent 0 { demoState with streamBuffer := ["a"] } (fragmentEvent "b")).1.streamBuffer
      = ["a", "b"] := by
  have h := streamBuffer_appends_in_order.1 0 { demoState with streamBuffer := ["a"] }
    (fragmentEvent "b") "b" rfl rfl rfl (by decide)
  simpa using h

/-- C2: when the completion response is processed, the resolved result is
the JavaScript or-chain of the joined Stream Buffer, the extracted
completion text and the placeholder: a non-empty buffer wins over the
structured text, an empty buffer falls back to the structured text, and
when both are empty the literal placeholder (a non-empty string) becomes
the result. -/
theorem completion_result_preference
    (s₀ : ClientState) (id : String) (p : ResPayload) (entry : PendingEntry)
    (hconn : s₀.connectRequestId = none)
    (hpend : mapGet s₀.pending id = some entry)
    (hka : entry.keepAlive = true)
    (hac : s₀.agentCompletionArmed = true)
    (hs1 : p.status ≠ some "accepted")
    (hs2 : p.status ≠ some "error") :
    let acts := (handleResponse s₀ { id := id, ok := true, payload := some p }).2
    acts = [Action.resolveAgentCompletion
        (jsOr (String.join s₀.streamBuffer) (jsOr (extractResultText p) "(empty response)"))]
    ∧ (String.join s₀.streamBuffer ≠ "" →
        acts = [Action.resolveAgentCompletion (String.join s₀.streamBuffer)])
    ∧ (String.join s₀.streamBuffer = "" → extractResultText p ≠ "" →
        acts = [Action.resolveAgentCompletion (extractResultText p)])
    ∧ (String.join s₀.streamBuffer = "" → extractResultText p = "" →
        acts = [Action.resolveAgentCompletion "(empty response)"])
    ∧ ("(empty response)" : String) ≠ "" := by
  have hmain : (handleResponse s₀ { id := id, ok := true, payload := some p }).2
      = [Action.resolveAgentCompletion
          (jsOr (String.join s₀.streamBuffer) (jsOr (extractResultText p) "(empty response)"))] := by
    simp [handleResponse, handleResponsePending, hconn, hpend, hka, hac, hs1, hs2]
  refine ⟨hmain, ?_, ?_, ?_, by decide⟩
  · intro hbuf
    have : (String.join s₀.streamBuffer).isEmpty = false := by
      cases h : (String.join s₀.streamBuffer).isEmpty
      · rfl
      · exact absurd ((String.isEmpty_iff _).mp h) hbuf
    rw [hmain]
    simp [jsOr, String.isEmpty_iff, hbuf]
  · intro hbuf hres
    rw [hmain, hbuf]
    simp [jsOr, String.isEmpty_iff, hres]
  · intro hbuf hres
    rw [hmain, hbuf, hres]
    simp [jsOr, String.isEmpty_iff]

/-- C2 witness: with a non-empty buffer and a structured completion text
present, the streamed content wins. -/
theorem completion_result_preference_witness :
    (handleResponse { demoState with streamBuffer := ["streamed ", "text"] }
        { id := "req-1", ok := true, payload := some completionPayload }).2
      = [Action.resolveAgentCompletion "streamed text"] := by
  have h := completion_result_preference
    { demoState with streamBuffer := ["streamed ", "text"] } "req-1" completionPayload
    { keepAlive := true, armed := true } rfl rfl rfl rfl (by decide) (by decide)
  exact h.2.1 (by decide)

/-- The or-chain with an empty left operand yields the right operand. -/
theorem jsOr_empty_left (b : String) : jsOr "" b = b := rfl

/-- Joining an empty buffer yields the empty string. -/
theorem join_nil : String.join ([] : List String) = "" := rfl

/-- C1: for the dual-phase agent call, the accepted response resolves only
the acceptance and keeps the Pending Call record (re-armed with no-op
resolvers); the subsequent completion response on the same correlation id
removes the record and resolves the overall call; with an empty Stream
Buffer the result is the text extracted from the completion payload (or
the placeholder when that text is empty), and the extraction follows the
chain structured result text, then summary, then error detail. -/
theorem dualPhase_accept_then_complete
    (s₀ : ClientState) (id : String) (p : ResPayload)
    (hconn : s₀.connectRequestId = none)
    (hpend : mapGet s₀.pending id = some { keepAlive := true, armed := true })
    (hac : s₀.agentCompletionArmed = true)
    (hbuf : s₀.streamBuffer = [])
    (hs1 : p.status ≠ some "accepted")
    (hs2 : p.status ≠ some "error") :
    let step₁ := handleResponse s₀ { id := id, ok := true, payload := some acceptedPayload }
    let step₂ := handleResponse step₁.1 { id := id, ok := true, payload := some p }
    step₁.2 = [Action.resolveAccepted id]
    ∧ mapGet step₁.1.pending id = some { keepAlive := true, armed := false }
    ∧ step₂.2 = [Action.resolveAgentCompletion (jsOr (extractResultText p) "(empty response)")]
    ∧ mapGet step₂.1.pending id = none
    ∧ (strTruthy (joinedPayloadTexts p) = true → extractResultText p = joinedPayloadTexts p)
    ∧ (strTruthy (joinedPayloadTexts p) = false → optStrTruthy p.summary = true →
        extractResultText p = p.summary.getD "")
    ∧ (strTruthy (joinedPayloadTexts p) = false → optStrTruthy p.summary = false →
        ∀ e, p.error = some e → errTruthy p.error = true →
          extractResultText p = errAsText e) := by
  have hstep₁ : handleResponse s₀ { id := id, ok := true, payload := some acceptedPayload }
      = ({ s₀ with pending := mapSet s₀.pending id { keepAlive := true, armed := false } },
         [Action.resolveAccepted id]) := by
    simp [handleResponse, handleResponsePending, hconn, hpend, acceptedPayload]
  refine ⟨by rw [hstep₁], ?_, ?_, ?_, ?_, ?_, ?_⟩
  · rw [hstep₁]
    exact mapGet_mapSet_self s₀.pending id _
  · rw [hstep₁]
    simp [handleResponse, handleResponsePending, hconn, hac, hs1, hs2,
      mapGet_mapSet_self, hbuf, join_nil, jsOr_empty_left]
  · rw [hstep₁]
    simp only [handleResponse, handleResponsePending, hconn, hac, hs1, hs2,
      mapGet_mapSet_self]
    simp [hs1, hs2, mapGet_mapDelete_self]
  · intro hjoined
    simp [extractResultText, hjoined]
  · intro hjoined hsum
    cases hps : p.summary with
    | none => rw [hps] at hsum; exact absurd hsum (by simp [optStrTruthy])
    | some str =>
      have hstr : strTruthy str = true := by
        rw [hps] at hsum; simpa [optStrTruthy] using hsum
      simp [extractResultText, hjoined, hps, optStrTruthy, hstr]
  · intro hjoined hsum e he herr
    rw [he] at herr
    simp [extractResultText, hjoined, hsum, he, herr]

/-- C1 witness: the two-phase exchange at concrete inputs, resolving with
the structured completion text. -/
theorem dualPhase_accept_then_complete_witness :
    (handleResponse
        (handleResponse demoState
          { id := "req-1", ok := true, payload := some acceptedPayload }).1
        { id := "req-1", ok := true, payload := some completionPayload }).2
      = [Action.resolveAgentCompletion "The answer"] := by
  have h := dualPhase_accept_then_complete demoState "req-1" completionPayload
    rfl rfl rfl rfl (by decide) (by decide)
  have h₃ := h.2.2.1
  rw [h₃]
  rfl

/-- C3: after the accepted response, a response carrying an explicit error
status resolves the overall call immediately with the error-derived result
and removes the Pending Call record; the settlement is produced by the
response messages alone — over the trace of just these two responses the
race inside sendMessage is already decided, with no timeout involved. -/
theorem errorStatus_fast_fail
    (s₀ : ClientState) (id : String) (p : ResPayload)
    (hconn : s₀.connectRequestId = none)
    (hpend : mapGet s₀.pending id = some { keepAlive := true, armed := true })
    (hac : s₀.agentCompletionArmed = true)
    (hstatus : p.status = some "error") :
    let step₁ := handleResponse s₀ { id := id, ok := true, payload := some acceptedPayload }
    let step₂ := handleResponse step₁.1 { id := id, ok := true, payload := some p }
    step₂.2 = [Action.resolveAgentCompletion ("⚠️ Error: " ++ errorStatusText p)]
    ∧ mapGet step₂.1.pending id = none
    ∧ runResult s₀
        [InMsg.res { id := id, ok := true, payload := some acceptedPayload },
         InMsg.res { id := id, ok := true, payload := some p }]
        = some ("⚠️ Error: " ++ errorStatusText p) := by
  have hstep₁ : handleResponse s₀ { id := id, ok := true, payload := some acceptedPayload }
      = ({ s₀ with pending := mapSet s₀.pending id { keepAlive := true, armed := false } },
         [Action.resolveAccepted id]) := by
    simp [handleResponse, handleResponsePending, hconn, hpend, acceptedPayload]
  have hstep₂ : (handleResponse
      { s₀ with pending := mapSet s₀.pending id { keepAlive := true, armed := false } }
      { id := id, ok := true, payload := some p }).2
      = [Action.resolveAgentCompletion ("⚠️ Error: " ++ errorStatusText p)] := by
    simp [handleResponse, handleResponsePending, hconn, hac, hstatus, mapGet_mapSet_self]
  refine ⟨by rw [hstep₁]; exact hstep₂, ?_, ?_⟩
  · rw [hstep₁]
    simp [handleResponse, handleResponsePending, hconn, hac, hstatus, mapGet_mapSet_self,
      mapGet_mapDelete_self]
  · simp only [runResult, stepMessage]
    rw [hstep₁]
    simp only [settlementOfActions]
    rw [hstep₂]
    simp [settlementOfActions]

/-- C3 witness: the fast-fail exchange at concrete inputs. -/
theorem errorStatus_fast_fail_witness :
    runResult demoState
        [InMsg.res { id := "req-1", ok := true, payload := some acceptedPayload },
         InMsg.res { id := "req-1", ok := true, payload := some errorPayload }]
      = some "⚠️ Error: boom" := by
  have h := errorStatus_fast_fail demoState "req-1" errorPayload rfl rfl rfl rfl
  have h₃ := h.2.2
  rw [h₃]
  rfl

/-- Pending-map correlation touches neither the connect state, the
lifecycle state, nor the stream buffer. -/
theorem hrp_preserves (s : ClientState) (r : RPCResponse) :
    (handleResponsePending s r).1.connectArmed = s.connectArmed
    ∧ (handleResponsePending s r).1.connectRequestId = s.connectRequestId
    ∧ (handleResponsePending s r).1.lifecycleEndArmed = s.lifecycleEndArmed
    ∧ (handleResponsePending s r).1.streamBuffer = s.streamBuffer := by
  unfold handleResponsePending
  rcases mapGet s.pending r.id with _ | entry
  · simp
  · simp only
    split_ifs <;> simp

/-- Pending-map correlation never emits a connect settlement. -/
theorem hrp_no_connect (s : ClientState) (r : RPCResponse) :
    ∀ a ∈ (handleResponsePending s r).2,
      a ≠ Action.resolveConnect ∧ ∀ m, a ≠ Action.rejectConnect m := by
  unfold handleResponsePending
  rcases mapGet s.pending r.id with _ | entry
  · simp
  · simp only
    split_ifs <;> simp

/-- Response handling never touches the lifecycle resolver. -/
theorem hr_preserves_lifecycle (s : ClientState) (r : RPCResponse) :
    (handleResponse s r).1.lifecycleEndArmed = s.lifecycleEndArmed := by
  unfold handleResponse
  rcases s.connectRequestId with _ | cid
  · exact (hrp_preserves s r).2.2.1
  · simp only
    split_ifs <;> first
      | simp
      | exact (hrp_preserves s r).2.2.1

/-- Event handling never arms the lifecycle resolver. -/
theorem he_lifecycle_mono (now : Nat) (s : ClientState) (e : StreamEvent) :
    (handleEvent now s e).1.lifecycleEndArmed = true → s.lifecycleEndArmed = true := by
  unfold handleEvent nextId
  by_cases hl : s.lifecycleEndArmed <;> split_ifs <;> simp_all

/-- Event handling never touches the connect resolvers. -/
theorem he_preserves_connectArmed (now : Nat) (s : ClientState) (e : StreamEvent) :
    (handleEvent now s e).1.connectArmed = s.connectArmed := by
  unfold handleEvent nextId
  by_cases hl : s.lifecycleEndArmed <;> split_ifs <;> simp_all

/-- Response handling never arms the connect resolvers. -/
theorem hr_connectArmed_mono (s : ClientState) (r : RPCResponse) :
    (handleResponse s r).1.connectArmed = true → s.connectArmed = true := by
  unfold handleResponse
  rcases s.connectRequestId with _ | cid
  · rw [(hrp_preserves s r).1]; exact id
  · simp only
    split_ifs <;> first
      | simp
      | (rw [(hrp_preserves s r).1]; exact id)

/-- C7: each call settles at most once.  Processing a terminal lifecycle
event leaves the lifecycle resolver disarmed, and a terminal event arriving
with the resolver already disarmed emits nothing; no handler re-arms the
lifecycle resolver.  A response matching the in-flight connect request id
clears that id and leaves the connect resolvers disarmed; once disarmed, a
later socket error, socket close or handshake timeout emits nothing, no
handler re-arms the connect resolvers, and pending-map correlation never
emits a connect settlement.  A response whose id has no pending record is a
complete no-op, so a call already settled and removed cannot settle
again. -/
theorem each_call_settles_at_most_once :
    (∀ (now : Nat) (s : ClientState),
      (handleEvent now s lifecycleEndEvent).1.lifecycleEndArmed = false
      ∧ (s.lifecycleEndArmed = false → (handleEvent now s lifecycleEndEvent).2 = []))
    ∧ (∀ (now : Nat) (s : ClientState) (m : InMsg),
        (stepMessage now s m).1.lifecycleEndArmed = true → s.lifecycleEndArmed = true)
    ∧ (∀ (s : ClientState) (r : RPCResponse) (cid : String),
        s.connectRequestId = some cid → r.id = cid →
        (handleResponse s r).1.connectRequestId = none
        ∧ (handleResponse s r).1.connectArmed = false)
    ∧ (∀ (s : ClientState) (msg : String) (code timeoutMs : Nat),
        s.connectArmed = false →
        (onSocketError s msg).2 = [] ∧ (onSocketClose s code).2 = []
        ∧ (onConnectTimeout s timeoutMs).2 = [])
    ∧ (∀ (now : Nat) (s : ClientState) (m : InMsg),
        (stepMessage now s m).1.connectArmed = true → s.connectArmed = true)
    ∧ (∀ (s : ClientState) (r : RPCResponse),
        ∀ a ∈ (handleResponsePending s r).2,
          a ≠ Action.resolveConnect ∧ ∀ m, a ≠ Action.rejectConnect m)
    ∧ (∀ (s : ClientState) (r : RPCResponse),
        s.connectRequestId = none → mapGet s.pending r.id = none →
        handleResponse s r = (s, [])) := by
  refine ⟨?_, ?_, ?_, ?_, ?_, hrp_no_connect, ?_⟩
  · intro now s
    by_cases hl : s.lifecycleEndArmed <;>
      simp [handleEvent, lifecycleEndEvent, hl]
  · intro now s m
    cases m with
    | res r => rw [stepMessage, hr_preserves_lifecycle]; exact id
    | event e => exact he_lifecycle_mono now s e
  · intro s r cid hconn hid
    unfold handleResponse
    rw [hconn]
    simp only [hid, if_pos rfl]
    by_cases hca : s.connectArmed <;> split_ifs <;> simp_all
  · intro s msg code timeoutMs hca
    refine ⟨?_, ?_, ?_⟩ <;> simp [onSocketError, onSocketClose, onConnectTimeout, hca]
  · intro now s m
    cases m with
    | res r => exact hr_connectArmed_mono s r
    | event e => rw [stepMessage, he_preserves_connectArmed]; exact id
  · intro s r hconn hnone
    unfold handleResponse
    rw [hconn]
    unfold handleResponsePending
    rw [hnone]

/-- C7 witness: a matching handshake response at a concrete state clears
the connect request id, so a repeated response cannot settle again. -/
theorem each_call_settles_at_most_once_witness :
    (handleResponse
        { demoState with connectRequestId := some "req-2", connectArmed := true }
        { id := "req-2", ok := true,
          payload := some { ptype := some "hello-ok" } }).1.connectRequestId = none :=
  (each_call_settles_at_most_once.2.2.1
    { demoState with connectRequestId := some "req-2", connectArmed := true }
    { id := "req-2", ok := true, payload := some { ptype := some "hello-ok" } }
    "req-2" rfl rfl).1

/-- C8 counterexample: at a concrete state with an outstanding Pending Call
and an open socket, `disconnect` releases the channel but leaves the
Pending Call record present and untouched — it settles nothing, so the
claim that a disconnect before any response settles every pending call is
false of the code: the record is settled only later, by its request
timeout. -/
theorem disconnect_settles_nothing_counterexample :
    (disconnect demoState).ws = none
    ∧ (disconnect demoState).pending = demoState.pending
    ∧ mapGet (disconnect demoState).pending "req-1"
        = some { keepAlive := true, armed := true } := by
  decide

/-- C8 (amended): `disconnect` is total (never throws), idempotent — a
second call is a no-op — and releases the physical channel unconditionally;
it settles no pending call itself: the pending map survives it untouched,
and an outstanding call settles only when its request timeout fires, which
rejects the caller and removes the record, so no caller waits past its
timeout. -/
theorem disconnect_idempotent_releases
    (s : ClientState) (t : ScheduledTimeout) (entry : PendingEntry)
    (hpend : mapGet s.pending t.id = some entry) (harmed : entry.armed = true) :
    disconnect (disconnect s) = disconnect s
    ∧ (disconnect s).ws = none
    ∧ (disconnect s).pending = s.pending
    ∧ (onRequestTimeout (disconnect s) t).2 = [Action.rejectPendingCall t.id t.message]
    ∧ mapGet (onRequestTimeout (disconnect s) t).1.pending t.id = none := by
  have hd : (disconnect s).ws = none ∧ (disconnect s).pending = s.pending := by
    unfold disconnect
    by_cases h : s.ws.isSome <;> simp_all
  refine ⟨?_, hd.1, hd.2, ?_, ?_⟩
  · unfold disconnect
    by_cases h : s.ws.isSome <;> simp_all
  · rw [onRequestTimeout, hd.2, hpend]
    simp [harmed]
  · rw [onRequestTimeout, hd.2, hpend]
    simp [mapGet_mapDelete_self]

/-- C8 witness: the amended behaviour at a concrete state and timeout. -/
theorem disconnect_idempotent_releases_witness :
    (onRequestTimeout (disconnect demoState)
        { id := "req-1", afterMs := 300000, message := "Agent request timeout after 300s" }).2
      = [Action.rejectPendingCall "req-1" "Agent request timeout after 300s"] :=
  (disconnect_idempotent_releases demoState
    { id := "req-1", afterMs := 300000, message := "Agent request timeout after 300s" }
    { keepAlive := true, armed := true } rfl rfl).2.2.2.1

/-- Matching a digit rendered by `Nat.digitChar` recovers the digit. -/
theorem digitVal_digitChar : ∀ m, m < 10 → digitVal (Nat.digitChar m) = m := by decide

/-- Unfolding the accumulator step of `digitsValFrom`. -/
theorem digitsValFrom_cons (a : Nat) (c : Char) (cs : List Char) :
    digitsValFrom a (c :: cs) = digitsValFrom (a * 10 + digitVal c) cs := rfl

/-- The decimal rendering core emits, before the accumulator, exactly the
digits of its input: reading the rendered characters back yields the
input. -/
theorem toDigitsCore_val (fuel : Nat) : ∀ (n : Nat) (ds : List Char), n < fuel →
    digitsValFrom 0 (Nat.toDigitsCore 10 fuel n ds) = digitsValFrom n ds := by
  induction fuel with
  | zero => intro n ds h; omega
  | succ fuel ih =>
    intro n ds h
    rw [Nat.toDigitsCore]
    by_cases h0 : n / 10 = 0
    · have hn : n < 10 := by omega
      simp only [h0, if_true]
      rw [digitsValFrom_cons, digitVal_digitChar (n % 10) (Nat.mod_lt n (by omega))]
      have hmod : n % 10 = n := Nat.mod_eq_of_lt hn
      rw [hmod]
      simp
    · have hlt : n / 10 < fuel := by
        have h10 : 10 ≤ n := by
          by_contra hc
          exact h0 (Nat.div_eq_of_lt (by omega))
        have : n / 10 < n := Nat.div_lt_self (by omega) (by omega)
        omega
      simp only [h0, if_false]
      rw [ih (n / 10) (Nat.digitChar (n % 10) :: ds) hlt]
      rw [digitsValFrom_cons, digitVal_digitChar (n % 10) (Nat.mod_lt n (by omega))]
      have hdm : n / 10 * 10 + n % 10 = n := by omega
      rw [hdm]

/-- Reading back the decimal rendering of a number yields the number. -/
theorem digitsVal_toDigits (n : Nat) : digitsValFrom 0 (Nat.toDigits 10 n) = n := by
  have h := toDigitsCore_val (n + 1) n [] (by omega)
  simpa [Nat.toDigits, digitsValFrom] using h

/-- Decimal rendering of naturals is injective. -/
theorem natRepr_injective (m n : Nat) (h : Nat.repr m = Nat.repr n) : m = n := by
  have hlist : Nat.toDigits 10 m = Nat.toDigits 10 n := by
    have hd := congrArg String.data h
    simpa [Nat.repr, List.asString] using hd
  have hm := digitsVal_toDigits m
  rw [hlist, digitsVal_toDigits n] at hm
  exact hm.symm

/-- A common prefix cancels on the left of string equations. -/
theorem string_append_left_cancel (p a b : String) (h : p ++ a = p ++ b) : a = b := by
  have hd : p.data ++ a.data = p.data ++ b.data := by
    have hc := congrArg String.data h
    simpa using hc
  have hab := List.append_cancel_left hd
  cases a; cases b; exact congrArg String.mk hab

/-- A key absent from every entry of an association list is not found. -/
theorem mapGet_eq_none_of_no_key (m : List (String × PendingEntry)) (k : String)
    (h : ∀ v, (k, v) ∉ m) : mapGet m k = none := by
  induction m with
  | nil => rfl
  | cons kv rest ih =>
    obtain ⟨a, b⟩ := kv
    have ha : a ≠ k := by
      intro hak
      exact h b (by rw [hak]; exact List.mem_cons_self _ _)
    rw [mapGet, if_neg ha]
    exact ih (fun v hv => h v (List.mem_cons_of_mem _ hv))

/-- C9: `nextId` increments the counter and renders the id req-(counter);
the rendering is injective, so distinct counters give distinct ids;
successive allocations are strictly increasing and never repeat an id; and
when every outstanding Pending Call key was rendered from a counter value
no larger than the current one — which holds along any run, since keys
enter the map only as freshly allocated ids — the freshly allocated id
collides with no outstanding record. -/
theorem correlation_ids_fresh :
    (∀ s : ClientState, (nextId s).2.requestId = s.requestId + 1
      ∧ (nextId s).1 = "req-" ++ toString (s.requestId + 1))
    ∧ (∀ m n : Nat, ("req-" ++ toString m) = ("req-" ++ toString n) → m = n)
    ∧ (∀ s : ClientState,
        (nextId s).2.requestId < (nextId (nextId s).2).2.requestId
        ∧ (nextId s).1 ≠ (nextId (nextId s).2).1)
    ∧ (∀ s : ClientState,
        (∀ k v, (k, v) ∈ s.pending → ∃ j ≤ s.requestId, k = "req-" ++ toString j) →
        mapGet s.pending (nextId s).1 = none) := by
  have hinj : ∀ m n : Nat, ("req-" ++ toString m) = ("req-" ++ toString n) → m = n := by
    intro m n h
    exact natRepr_injective m n (string_append_left_cancel "req-" _ _ h)
  refine ⟨fun s => ⟨rfl, rfl⟩, hinj, ?_, ?_⟩
  · intro s
    refine ⟨by simp [nextId], ?_⟩
    intro h
    have := hinj (s.requestId + 1) (s.requestId + 1 + 1) h
    omega
  · intro s hkeys
    apply mapGet_eq_none_of_no_key
    intro v hv
    obtain ⟨j, hj, hk⟩ := hkeys (nextId s).1 v hv
    have : s.requestId + 1 = j := hinj _ _ hk
    omega

/-- C9 witness: with req-1 outstanding at counter 1, the next id is fresh. -/
theorem correlation_ids_fresh_witness :
    mapGet demoState.pending (nextId demoState).1 = none := by
  apply correlation_ids_fresh.2.2.2 demoState
  intro k v hkv
  have hk : k = "req-1" := by
    simpa [demoState] using congrArg Prod.fst (List.mem_singleton.mp hkv)
  exact ⟨1, by norm_num [demoState], by rw [hk]; rfl⟩

/-- Pending-map correlation of a response leaves records with other
correlation ids untouched. -/
theorem hrp_pending_other (s : ClientState) (r : RPCResponse) (k : String)
    (hk : k ≠ r.id) :
    mapGet (handleResponsePending s r).1.pending k = mapGet s.pending k := by
  unfold handleResponsePending
  rcases h : mapGet s.pending r.id with _ | entry
  · simp
  · simp only
    split_ifs <;>
      simp [mapGet_mapDelete_ne _ _ _ hk, mapGet_mapSet_ne _ _ _ _ hk]

/-- Event handling never touches the pending map. -/
theorem he_preserves_pending (now : Nat) (s : ClientState) (e : StreamEvent) :
    (handleEvent now s e).1.pending = s.pending := by
  unfold handleEvent nextId
  by_cases hl : s.lifecycleEndArmed <;> split_ifs <;> simp_all

/-- C10 counterexample: with the socket field absent, `request` throws
Not connected instead of registering anything: at a concrete state with no
socket it returns the error outcome, so no Pending Call record is created
and no timeout is scheduled — contradicting the claim that with an absent
socket the call still registers its record and settles via the timeout. -/
theorem request_absent_socket_counterexample :
    request { demoState with ws := none } "ping" = Except.error "Not connected" := by
  rfl

/-- C10 (amended): when the socket is present but not OPEN, `request`
registers its Pending Call record and schedules the 60-second timeout while
the outbound frame is silently dropped with no error; receiving no response
for its id, the record survives responses for other ids and all events, and
settles only via the timeout, which rejects with the timeout message and
removes the record.  (When the socket field is absent, `request` instead
throws Not connected without registering, as the counterexample shows.) -/
theorem request_nonopen_socket_times_out
    (s : ClientState) (method : String) (st : WsReadyState)
    (hws : s.ws = some st) (hst : st ≠ WsReadyState.opened) :
    let id := "req-" ++ toString (s.requestId + 1)
    let s₂ : ClientState :=
      { s with requestId := s.requestId + 1,
               pending := mapSet s.pending id { keepAlive := false, armed := true } }
    let t : ScheduledTimeout :=
      { id := id, afterMs := 60000, message := "Request timeout: " ++ method }
    request s method = Except.ok (s₂, id, [], t)
    ∧ mapGet s₂.pending id = some { keepAlive := false, armed := true }
    ∧ (onRequestTimeout s₂ t).2
        = [Action.rejectPendingCall id ("Request timeout: " ++ method)]
    ∧ mapGet (onRequestTimeout s₂ t).1.pending id = none
    ∧ (∀ r : RPCResponse, r.id ≠ id → s.connectRequestId = none →
        mapGet (handleResponse s₂ r).1.pending id = mapGet s₂.pending id)
    ∧ (∀ (now : Nat) (e : StreamEvent), (handleEvent now s₂ e).1.pending = s₂.pending) := by
  intro id s₂ t
  have hsend : send s₂ (OutFrame.rpcReq id method) = [] := by
    unfold send
    rw [if_neg]
    intro heq
    rw [show s₂.ws = some st from hws] at heq
    exact hst (by injection heq)
  refine ⟨?_, mapGet_mapSet_self _ _ _, ?_, ?_, ?_, fun now e => he_preserves_pending now s₂ e⟩
  · unfold request
    rw [hws]
    simp only [nextId]
    rw [hsend]
  · rw [onRequestTimeout, mapGet_mapSet_self]
    simp
  · rw [onRequestTimeout, mapGet_mapSet_self]
    simp [mapGet_mapDelete_self]
  · intro r hr hconn
    unfold handleResponse
    have : s₂.connectRequestId = none := hconn
    rw [this]
    exact hrp_pending_other s₂ r id (Ne.symm hr)

/-- C10 witness: the amended behaviour at a concrete CONNECTING-socket
state. -/
theorem request_nonopen_socket_times_out_witness :
    request { demoState with ws := some WsReadyState.connecting } "agent"
      = Except.ok
          ({ demoState with
              ws := some WsReadyState.connecting
              requestId := 2
              pending := mapSet demoState.pending "req-2" { keepAlive := false, armed := true } },
           "req-2", [],
           { id := "req-2", afterMs := 60000, message := "Request timeout: agent" }) :=
  (request_nonopen_socket_times_out
    { demoState with ws := some WsReadyState.connecting } "agent"
    WsReadyState.connecting rfl (by decide)).1

end OpenClaw
